import Mathlib

set_option autoImplicit false

/-!
Shallow embedding of the `simpleforce` Salesforce client library.

The repository stores a dynamic record (`SObject`) as a Go
`map[string]interface{}`; we embed such maps as association lists
`List (String × GoVal)` with first-match lookup, and the Go `interface{}`
values that actually occur in the code as the inductive `GoVal`.
Go functions that can panic are embedded with an `Option` result,
`none` marking the panic.  The HTTP transport and the Go standard-library
decoders (`json.Unmarshal`, `xml.Unmarshal`) are external collaborators:
their outcome for the concrete bytes on the wire is passed to each
operation as an explicit oracle argument, so every operation stays a pure
function of its inputs.

The source tree contains several historical variants of the same design;
each embedded definition names, in its doc comment, the exact source
function (file and variant) it is translated from.
-/

namespace Simpleforce

/-- Go constant `logPrefix = "[simpleforce]"` from `force.go`. -/
def logTag : String := "[simpleforce]"

/-- `SobjectClientKey` / `sobjectClientKey` = `"__client__"` (`sobject.go`). -/
def SobjectClientKey : String := "__client__"

/-- `SobjectAttributesKey` / `sobjectAttributesKey` = `"attributes"` (`sobject.go`). -/
def SobjectAttributesKey : String := "attributes"

/-- `sobjectIDKey = "Id"` (`sobject.go`). -/
def sobjectIDKey : String := "Id"

/-- `sobjectExternalIDFieldNameKey = "ExternalIDField"` (`part_012`). -/
def sobjectExternalIDFieldNameKey : String := "ExternalIDField"

/-- The fixed deny-list `blacklistedUpdateFields` (`sobject.go`, identical in
`part_011` and `part_012`). -/
def blacklistedUpdateFields : List String :=
  [ "LastModifiedDate", "LastReferencedDate", "IsClosed", "ContactPhone",
    "CreatedById", "CaseNumber", "ContactFax", "ContactMobile", "IsDeleted",
    "LastViewedDate", "SystemModstamp", "CreatedDate", "ContactEmail",
    "ClosedDate", "LastModifiedById" ]

/-- Go `interface{}` values that occur in an `SObject` map: JSON scalars,
nested objects and arrays, plus the two non-JSON values the library itself
stores into the map: a concrete `SObjectAttributes` struct and a `*Client`
pointer (`clientPtr none` is a stored nil pointer). -/
inductive GoVal where
  | str (s : String)
  | num (n : Int)
  | boolean (b : Bool)
  | null
  | obj (fields : List (String × GoVal))
  | arr (elems : List GoVal)
  | attrsVal (ty url : String)
  | clientPtr (addr : Option Nat)

/-- `SObject` (`sobject.go`): `map[string]interface{}`, embedded as an
association list with first-match lookup. -/
def SObject : Type := List (String × GoVal)

/-- `SObjectAttributes` (`sobject.go`): the `{type, url}` struct. -/
structure SObjectAttributes where
  ty : String
  url : String
deriving DecidableEq

/-- Go error values produced by the embedded code.  `message` below gives the
string each one carries. -/
inductive GoErr where
  /-- `ErrFailure` / `ERR_FAILURE` = `errors.New("general failure")`. -/
  | errFailure
  /-- `ErrAuthentication` / `ERR_AUTHENTICATION`. -/
  | errAuthentication
  /-- `ERR_DATA_NOT_FOUND` = `errors.New("data not found")`. -/
  | errDataNotFound
  /-- `ErrInvalidSObject{msg}` (`errorHelpers` variant in the force.go v1 snapshot). -/
  | invalidSObject (msg : String)
  /-- `errors.New` / `fmt.Errorf` with a fully computed message. -/
  | errorf (msg : String)
  /-- `fmt.Errorf("{\"error\" : %w, \"code\": %d}", err, code)` (`sobject.go`). -/
  | wrapped (inner : GoErr) (code : Int)
  /-- `SalesforceError{Message, HttpCode, ErrorCode, ErrorMessage}`
  (`errorHelpers` variant carrying the HTTP status). -/
  | salesforce (msg : String) (httpCode : Int) (errorCode : String) (errorMessage : String)
deriving DecidableEq

/-- The string returned by the Go `Error()` method of each error value. -/
def GoErr.message : GoErr → String
  | .errFailure => "general failure"
  | .errAuthentication => "authentication failure"
  | .errDataNotFound => "data not found"
  | .invalidSObject m => "invalid sobject: " ++ m
  | .errorf m => m
  | .wrapped e code =>
      "\x7b\"error\" : " ++ e.message ++ ", \"code\": " ++ toString code ++ "\x7d"
  | .salesforce m _ _ _ => m

/-- One element of the `jsonError` slice (`errorHelpers.go`):
`{message, errorCode}`. -/
structure JsonErrItem where
  message : String
  errorCode : String
deriving DecidableEq

/-- The `xmlError` struct (`errorHelpers.go`): `faultstring`/`faultcode`
extracted from the XML fault envelope. -/
structure XmlErr where
  message : String
  errorCode : String
deriving DecidableEq

/-- The formatted message shared by both decode branches of the classifier:
`fmt.Sprintf(logPrefix+" Error. http code: %v Error Message:  %v Error Code: %v", ...)`. -/
def classifierMsg (statusCode : Int) (message errorCode : String) : String :=
  logTag ++ " Error. http code: " ++ toString statusCode ++
    " Error Message:  " ++ message ++ " Error Code: " ++ errorCode

/-- `ParseSalesforceError` (`src/errorHelpers.go`, lines 31–46).

`jsonDec` is the outcome of `json.Unmarshal(responseBody, &jsonError)`
(`some items` on success) and `xmlDec` the outcome of
`xml.Unmarshal(responseBody, &xmlError)`; both are oracle arguments for the
standard-library decoders.  The result is `none` when the Go code panics:
on a successful JSON decode the code indexes `jsonError[0]` without checking
that the slice is non-empty.  `responseBody` itself is only logged in this
variant. -/
def ParseSalesforceError (statusCode : Int) (responseBody : String)
    (jsonDec : Option (List JsonErrItem)) (xmlDec : Option XmlErr) : Option GoErr :=
  match jsonDec with
  | some items =>
      match items with
      | [] => none
      | e :: _ => some (.errorf (classifierMsg statusCode e.message e.errorCode))
  | none =>
      match xmlDec with
      | some x => some (.errorf (classifierMsg statusCode x.message x.errorCode))
      | none =>
          -- log.Println("ERROR UNMARSHALLING: ", err); return ErrFailure
          let _ := responseBody
          some .errFailure

/-- `ParseSalesforceError`, the `SalesforceError`-returning variant
(the `errorHelpers` snapshot stored in `src/errorHelpers_test.go`,
lines 97–130): identical control flow, but each branch builds a
`SalesforceError` carrying the HTTP status, and the fallback branch carries
the verbatim body as message.  `jsonError[0]` is again unguarded, so an
empty decoded array still panics (`none`). -/
def ParseSalesforceErrorSE (statusCode : Int) (responseBody : String)
    (jsonDec : Option (List JsonErrItem)) (xmlDec : Option XmlErr) : Option GoErr :=
  match jsonDec with
  | some items =>
      match items with
      | [] => none
      | e :: _ =>
          some (.salesforce (classifierMsg statusCode e.message e.errorCode)
            statusCode e.errorCode e.message)
  | none =>
      match xmlDec with
      | some x =>
          some (.salesforce (classifierMsg statusCode x.message x.errorCode)
            statusCode x.errorCode x.message)
      | none => some (.salesforce responseBody statusCode "" "")

/-! ### SObject field access (`sobject.go`) -/

/-- `(*obj)[key]` for the Go map: first-match lookup in the association
list; `none` is Go's `nil` for a missing key.  This is
`func (obj *SObject) InterfaceField(key string) interface{}`. -/
def InterfaceField (obj : SObject) (key : String) : Option GoVal :=
  match obj with
  | [] => none
  | (k, v) :: rest => if k = key then some v else InterfaceField rest key

/-- `(*obj)[key] = value` for the Go map: replace the binding if the key is
present, append it otherwise.  This is the store performed by
`func (obj *SObject) Set(key string, value interface{})` and the internal
setters. -/
def setField (obj : SObject) (key : String) (v : GoVal) : SObject :=
  match obj with
  | [] => [(key, v)]
  | (k, w) :: rest =>
      if k = key then (k, v) :: rest else (k, w) :: setField rest key v

/-- `func (obj *SObject) StringField(key string) string`: the value if it is
natively a string, the empty string otherwise (including a missing key). -/
def StringField (obj : SObject) (key : String) : String :=
  match InterfaceField obj key with
  | some (.str s) => s
  | _ => ""

/-- `func (obj *SObject) ID() string` = `obj.StringField("Id")`. -/
def SObject.ID (obj : SObject) : String :=
  StringField obj sobjectIDKey

/-- `func (obj *SObject) ExternalIDFieldName() string` (`part_012`). -/
def ExternalIDFieldName (obj : SObject) : String :=
  StringField obj sobjectExternalIDFieldNameKey

/-- `func (obj *SObject) ExternalID() string` (`part_012`). -/
def ExternalID (obj : SObject) : String :=
  StringField obj (ExternalIDFieldName obj)

/-- `func (obj *SObject) client() *Client`: the `"__client__"` entry if it
holds a `*Client` value (a stored nil pointer also type-switches as
`*Client` and yields Go `nil`, i.e. `none` here); `nil` otherwise. -/
def clientOf (obj : SObject) : Option Nat :=
  match InterfaceField obj SobjectClientKey with
  | some (.clientPtr a) => a
  | _ => none

/-- `func (obj *SObject) setClient(client *Client)`. -/
def setClient (obj : SObject) (addr : Option Nat) : SObject :=
  setField obj SobjectClientKey (.clientPtr addr)

/-- `func (obj *SObject) setID(id string)`. -/
def setID (obj : SObject) (id : String) : SObject :=
  setField obj sobjectIDKey (.str id)

/-- The unchecked type assertion `mapper[k].(string)` guarded by
`if mapper[k] != nil` in `AttributesField`: a missing or `nil` entry leaves
the struct field at its zero value `""`; a non-nil non-string entry makes
the assertion panic (`none`). -/
def goStringAssert : Option GoVal → Option String
  | none => some ""
  | some .null => some ""
  | some (.str s) => some s
  | some _ => none

/-- `func (obj *SObject) AttributesField() *SObjectAttributes`
(`sobject.go`, lines 292–314).  Outer `none` is a panic; `some none` is the
Go `nil` return; `some (some a)` is a returned copy of the attributes. -/
def AttributesField (obj : SObject) : Option (Option SObjectAttributes) :=
  match InterfaceField obj SobjectAttributesKey with
  | some (.attrsVal t u) => some (some ⟨t, u⟩)
  | some (.obj mapper) =>
      match goStringAssert (InterfaceField mapper "type") with
      | none => none
      | some t =>
          match goStringAssert (InterfaceField mapper "url") with
          | none => none
          | some u => some (some ⟨t, u⟩)
  | _ => some none

/-- `func (obj *SObject) Type() string` (`sobject.go`, lines 212–218):
empty string when `AttributesField` returns nil.  `none` is a propagated
panic from `AttributesField`. -/
def SObject.typeName (obj : SObject) : Option String :=
  match AttributesField obj with
  | none => none
  | some none => some ""
  | some (some a) => some a.ty

/-- `func (obj *SObject) setType(typeName string)` (`sobject.go`): when the
attributes entry already holds a concrete `SObjectAttributes` struct the
type field of a copy is updated and stored back; any other current value is
overwritten with a fresh struct (zero `URL`). -/
def setType (obj : SObject) (typeName : String) : SObject :=
  match InterfaceField obj SobjectAttributesKey with
  | some (.attrsVal _ u) => setField obj SobjectAttributesKey (.attrsVal typeName u)
  | _ => setField obj SobjectAttributesKey (.attrsVal typeName "")

/-! ### Outbound wire copies (`makeCopy`) -/

/-- Go `delete(stripped, key)` on the association-list map. -/
def deleteKey (obj : SObject) (key : String) : SObject :=
  obj.filter (fun kv => decide (kv.1 ≠ key))

/-- `func (obj *SObject) makeCopy() map[string]interface{}`
(`src/sobject.go`, lines 360–374): skip the client, attributes and identity
keys while copying, then delete every fixed deny-listed field. -/
def SObject.makeCopy (obj : SObject) : SObject :=
  let stripped := obj.filter (fun kv =>
    decide (¬(kv.1 = SobjectClientKey ∨ kv.1 = SobjectAttributesKey ∨
      kv.1 = sobjectIDKey)))
  blacklistedUpdateFields.foldl deleteKey stripped

/-- `func (s *SObject) makeCopy(blacklistedFields []string)`
(`src/unnamed/part_011`, lines 144–164): skip the attributes and identity
keys while copying (this variant's records never store a client), then
delete the fixed deny-list, then delete the caller-supplied deny-list. -/
def SObject.makeCopyBl (obj : SObject) (blacklistedFields : List String) : SObject :=
  let stripped := obj.filter (fun kv =>
    decide (¬(kv.1 = SobjectAttributesKey ∨ kv.1 = sobjectIDKey)))
  let stripped := blacklistedUpdateFields.foldl deleteKey stripped
  blacklistedFields.foldl deleteKey stripped

/-- `func (obj *SObject) makeCopy()` (`src/unnamed/part_012`, lines
407–424): additionally skips the external-id bookkeeping fields. -/
def SObject.makeCopyExt (obj : SObject) : SObject :=
  let stripped := obj.filter (fun kv =>
    decide (¬(kv.1 = SobjectClientKey ∨ kv.1 = SobjectAttributesKey ∨
      kv.1 = sobjectIDKey ∨ kv.1 = sobjectExternalIDFieldNameKey ∨
      kv.1 = ExternalIDFieldName obj)))
  blacklistedUpdateFields.foldl deleteKey stripped

mutual

/-- Whether `json.Marshal` accepts a value: everything the library stores is
marshalable except a `*Client` pointer (`http.Client` handles never appear
as field values). -/
def marshalableVal : GoVal → Bool
  | .str _ => true
  | .num _ => true
  | .boolean _ => true
  | .null => true
  | .attrsVal _ _ => true
  | .clientPtr _ => false
  | .obj fields => marshalableFields fields
  | .arr elems => marshalableElems elems

/-- `marshalableVal` over the entries of a nested object. -/
def marshalableFields : List (String × GoVal) → Bool
  | [] => true
  | (_, v) :: rest => marshalableVal v && marshalableFields rest

/-- `marshalableVal` over the elements of an array. -/
def marshalableElems : List GoVal → Bool
  | [] => true
  | v :: rest => marshalableVal v && marshalableElems rest

end

/-- `json.Marshal(reqObj)` succeeds exactly on marshalable field values. -/
def marshalOK (obj : SObject) : Bool :=
  marshalableFields obj

/-! ### Client state and heap

`sobject.go` stores a `*Client` pointer inside the record; pointer values
are embedded as heap addresses (`Nat`) and the heap maps every address to
the pointed-to `Client` struct.  Aliased handles are equal addresses. -/

/-- The fields of the `Client` struct (`force.go`, lines 941–957) that the
embedded operations read or write.  The `httpClient` handle and the cached
user-info struct are carried by the Go struct but never touched by any
modelled operation. -/
structure ClientState where
  sessionID : String
  clientID : String
  apiVersion : String
  baseURL : String
  instanceURL : String
  useToolingAPI : Bool
deriving DecidableEq

/-- The heap of `Client` structs, indexed by pointer address. -/
def Heap : Type := Nat → ClientState

/-- Store back a mutated `Client` struct at its address. -/
def heapSet (h : Heap) (addr : Nat) (c : ClientState) : Heap :=
  fun a => if a = addr then c else h a

/-- `strings.Replace(s, "v", "", -1)`: drop every `v`. -/
def stripV (s : String) : String :=
  String.mk (s.data.filter (fun c => decide (c ≠ 'v')))

/-- `strings.HasPrefix`, over character lists. -/
def hasPrefixChars : List Char → List Char → Bool
  | _, [] => true
  | [], _ :: _ => false
  | c :: cs, p :: ps => c = p && hasPrefixChars cs ps

/-- `strings.HasPrefix(s, p)`. -/
def hasPrefixStr (s p : String) : Bool :=
  hasPrefixChars s.data p.data

/-- `func (client *Client) makeURL(req string) string` (`force.go`, lines
1172–1177).  It first strips every `"v"` from `client.apiVersion` and
assigns the result back — the client struct is mutated — then formats
`"%s/services/data/v%s/%s"` from the instance URL, the stripped version and
the fragment. -/
def Client.makeURL (c : ClientState) (req : String) : ClientState × String :=
  let v := stripV c.apiVersion
  ({ c with apiVersion := v },
    c.instanceURL ++ "/services/data/v" ++ v ++ "/" ++ req)

/-- `func (client *Client) Tooling() *Client` (`src/unnamed/part_000`,
lines 78–81): sets `useToolingAPI` on the pointed-to struct and returns the
receiver pointer itself. -/
def Client.Tooling (h : Heap) (addr : Nat) : Heap × Nat :=
  (heapSet h addr { h addr with useToolingAPI := true }, addr)

/-- `func (client *Client) UnTooling()` (`src/unnamed/part_000`,
lines 83–85). -/
def Client.UnTooling (h : Heap) (addr : Nat) : Heap :=
  heapSet h addr { h addr with useToolingAPI := false }

/-- `func (client *Client) SObject(typeName ...string) *SObject`
(`force.go`, lines 1039–1046), as invoked through a possibly-nil receiver:
the receiver pointer is stored as the record's client without being
dereferenced, so a nil receiver does not panic. -/
def clientSObject (addr : Option Nat) (typeName : Option String) : SObject :=
  let obj := setClient [] addr
  match typeName with
  | some t => setType obj t
  | none => obj

/-! ### Transport and decode oracles -/

/-- One HTTP request as issued by an operation: method, fully-built URL, the
marshalled payload map (`none` for a nil body) and any extra headers set by
the operation itself. -/
structure Request where
  method : String
  url : String
  payload : Option SObject
  headers : List (String × String)

/-- Outcome of the three-result transport
`httpRequest(method, url, body) (data, code, err)` used by the `sobject.go`
operations, combined with the subsequent decoding of `data`: `err e code`
is a transport failure, `ok dec` carries the decode outcome `dec` of the
returned bytes. -/
inductive TR (δ : Type) where
  | err (e : GoErr) (code : Int)
  | ok (dec : δ)

/-- Outcome of the two-result transport `(data, err)` / `(res, err)` used by
the `part_012` and force.go-v1 operations. -/
inductive TR2 (δ : Type) where
  | err (e : GoErr)
  | ok (dec : δ)

/-- The anonymous create-response struct `{id string, success bool}`
(`sobject.go`, lines 138–141 / `createSObjectResponse` in `force.go`). -/
structure CreateRespVal where
  id : String
  success : Bool
deriving DecidableEq

/-- `json.Unmarshal(data, obj)` into an existing map merges the decoded
fields over the current entries. -/
def mergeFields (obj : SObject) (fields : SObject) : SObject :=
  fields.foldl (fun o kv => setField o kv.1 kv.2) obj

/-! ### `sobject.go` record operations -/

/-- Output of `Describe`: the possibly-mutated client heap, the issued
requests, the returned metadata map (`none` = Go `nil`) and the returned
error. -/
structure DescribeOut where
  heap : Heap
  requests : List Request
  meta : Option SObject
  err : Option GoErr

/-- Output of `Get`/`Create`/`Update`: heap, issued requests, the state of
the receiver record after the call, whether the returned `*SObject` is the
receiver (`false` = Go `nil` was returned) and the returned error. -/
structure SObjOpOut where
  heap : Heap
  requests : List Request
  objAfter : SObject
  returnsReceiver : Bool
  err : Option GoErr

/-- Output of `Delete`: heap, issued requests, receiver state after the
call and the returned error. -/
structure DeleteOut where
  heap : Heap
  requests : List Request
  objAfter : SObject
  err : Option GoErr

/-- `func (obj *SObject) Describe() (*SObjectMeta, error)`
(`src/sobject.go`, lines 56–73).  `none` = panic inside `obj.Type()`. -/
def SObject.Describe (h : Heap) (obj : SObject)
    (tr : TR (Except GoErr SObject)) : Option DescribeOut :=
  match obj.typeName with
  | none => none
  | some ty =>
    if ty = "" then some ⟨h, [], none, some .errDataNotFound⟩
    else
      match clientOf obj with
      | none => some ⟨h, [], none, some .errDataNotFound⟩
      | some addr =>
        let p := Client.makeURL (h addr) ("sobjects/" ++ ty ++ "/describe")
        let h1 := heapSet h addr p.1
        let req : Request := ⟨"GET", p.2, none, []⟩
        match tr with
        | .err e code => some ⟨h1, [req], none, some (.wrapped e code)⟩
        | .ok (.error e) => some ⟨h1, [req], none, some e⟩
        | .ok (.ok meta) => some ⟨h1, [req], some meta, none⟩

/-- `func (obj *SObject) Get(id ...string) (*SObject, error)`
(`src/sobject.go`, lines 80–109).  On a decode failure the Go code logs and
executes `return nil, nil`: no receiver, no error. -/
def SObject.Get (h : Heap) (obj : SObject) (id : Option String)
    (tr : TR (Except GoErr SObject)) : Option SObjOpOut :=
  match obj.typeName with
  | none => none
  | some ty =>
    if ty = "" then some ⟨h, [], obj, false, some .errDataNotFound⟩
    else
      match clientOf obj with
      | none => some ⟨h, [], obj, false, some .errDataNotFound⟩
      | some addr =>
        let oid := id.getD obj.ID
        if oid = "" then some ⟨h, [], obj, false, some .errDataNotFound⟩
        else
          let p := Client.makeURL (h addr) ("sobjects/" ++ ty ++ "/" ++ oid)
          let h1 := heapSet h addr p.1
          let req : Request := ⟨"GET", p.2, none, []⟩
          match tr with
          | .err e code => some ⟨h1, [req], obj, false, some (.wrapped e code)⟩
          | .ok (.error _) => some ⟨h1, [req], obj, false, none⟩
          | .ok (.ok fields) => some ⟨h1, [req], mergeFields obj fields, true, none⟩

/-- `func (obj *SObject) Create() (*SObject, error)`
(`src/sobject.go`, lines 115–154).  When the decoded response has
`Success == false` or an empty `ID`, the code executes `return nil, err`
where `err` is the (nil) result of the successful `json.Unmarshal`: no
receiver, no error. -/
def SObject.Create (h : Heap) (obj : SObject)
    (tr : TR (Except GoErr CreateRespVal)) : Option SObjOpOut :=
  match obj.typeName with
  | none => none
  | some ty =>
    if ty = "" then some ⟨h, [], obj, false, some .errDataNotFound⟩
    else
      match clientOf obj with
      | none => some ⟨h, [], obj, false, some .errDataNotFound⟩
      | some addr =>
        let reqObj := obj.makeCopy
        if marshalOK reqObj = false then
          some ⟨h, [], obj, false, some (.errorf "json: unsupported type")⟩
        else
          let p := Client.makeURL (h addr) ("sobjects/" ++ ty ++ "/")
          let h1 := heapSet h addr p.1
          let req : Request := ⟨"POST", p.2, some reqObj, []⟩
          match tr with
          | .err e code => some ⟨h1, [req], obj, false, some (.wrapped e code)⟩
          | .ok (.error e) => some ⟨h1, [req], obj, false, some e⟩
          | .ok (.ok v) =>
            if v.success = false ∨ v.id = "" then some ⟨h1, [req], obj, false, none⟩
            else some ⟨h1, [req], setID obj v.id, true, none⟩

/-- `func (obj *SObject) Update() (*SObject, error)`
(`src/sobject.go`, lines 158–184): requires type, client and identity;
routes through `tooling/sobjects/` when the bound client's tooling flag is
set. -/
def SObject.Update (h : Heap) (obj : SObject) (tr : TR Unit) : Option SObjOpOut :=
  match obj.typeName with
  | none => none
  | some ty =>
    if ty = "" then some ⟨h, [], obj, false, some .errDataNotFound⟩
    else
      match clientOf obj with
      | none => some ⟨h, [], obj, false, some .errDataNotFound⟩
      | some addr =>
        if obj.ID = "" then some ⟨h, [], obj, false, some .errDataNotFound⟩
        else
          let reqObj := obj.makeCopy
          if marshalOK reqObj = false then
            some ⟨h, [], obj, false, some (.errorf "json: unsupported type")⟩
          else
            let queryBase :=
              if (h addr).useToolingAPI then "tooling/sobjects/" else "sobjects/"
            let p := Client.makeURL (h addr) (queryBase ++ ty ++ "/" ++ obj.ID)
            let h1 := heapSet h addr p.1
            let req : Request := ⟨"PATCH", p.2, some reqObj, []⟩
            match tr with
            | .err e code => some ⟨h1, [req], obj, false, some (.wrapped e code)⟩
            | .ok _ => some ⟨h1, [req], obj, true, none⟩

/-- `func (obj *SObject) Delete(id ...string) error`
(`src/sobject.go`, lines 188–209).  The override argument is copied into
`oid` and checked for emptiness, but the URL is then built from
`obj.ID()` — the record's stored identity — not from `oid`. -/
def SObject.Delete (h : Heap) (obj : SObject) (id : Option String)
    (tr : TR Unit) : Option DeleteOut :=
  match obj.typeName with
  | none => none
  | some ty =>
    if ty = "" then some ⟨h, [], obj, some .errFailure⟩
    else
      match clientOf obj with
      | none => some ⟨h, [], obj, some .errFailure⟩
      | some addr =>
        let oid := id.getD obj.ID
        if oid = "" then some ⟨h, [], obj, some .errFailure⟩
        else
          let p := Client.makeURL (h addr) ("sobjects/" ++ ty ++ "/" ++ obj.ID)
          let h1 := heapSet h addr p.1
          let req : Request := ⟨"DELETE", p.2, none, []⟩
          match tr with
          | .err e code => some ⟨h1, [req], obj, some (.wrapped e code)⟩
          | .ok _ => some ⟨h1, [req], obj, none⟩

/-- Index of the last `'/'` in a character list (`strings.LastIndex(url, "/")`;
`none` = Go `-1`). -/
def lastSlashIdx : List Char → Option Nat
  | [] => none
  | c :: rest =>
      match lastSlashIdx rest with
      | some i => some (i + 1)
      | none => if c = '/' then some 0 else none

/-- `func (obj *SObject) SObjectField(typeName, key string) *SObject`
(`src/sobject.go`, lines 238–284).  `none` here is the Go `nil` return —
every type assertion in this function uses the comma-ok form, so it cannot
panic.  The scalar branch builds a stub on a fresh record: client, then
type, then identity. -/
def SObject.SObjectField (obj : SObject) (typeName key : String) : Option SObject :=
  let oid := StringField obj key
  if oid ≠ "" then
    some (setID (setType (setClient [] (clientOf obj)) typeName) oid)
  else
    match InterfaceField obj key with
    | some (.obj linkedObjMapper) =>
      match InterfaceField linkedObjMapper SobjectAttributesKey with
      | some (.obj attrs) =>
        let tn := match InterfaceField attrs "type" with
          | some (.str s) => s
          | _ => ""
        let u := match InterfaceField attrs "url" with
          | some (.str s) => s
          | _ => ""
        if tn = "" ∨ u = "" then none
        else
          match lastSlashIdx u.data with
          | none => none
          | some i =>
            if i + 1 = u.data.length then none
            else
              let oid2 := String.mk (u.data.drop (i + 1))
              let object := setID (clientSObject (clientOf obj) (some tn)) oid2
              some (mergeFields object linkedObjMapper)
      | _ => none
    | _ => none

/-! ### `part_012` Upsert -/

/-- Output of `Upsert` (`part_012` returns only `*SObject`, no error). -/
structure UpsertOut where
  heap : Heap
  requests : List Request
  objAfter : SObject
  returnsReceiver : Bool

/-- `func (obj *SObject) Upsert() *SObject` (`src/unnamed/part_012`, lines
180–221): requires type, client, external-id field name and external-id
value; routes through `tooling/sobjects/` on the tooling flag; parses the
create response only when the body is non-empty. -/
def SObject.Upsert (h : Heap) (obj : SObject)
    (tr : TR2 (Option (Except GoErr CreateRespVal))) : Option UpsertOut :=
  match obj.typeName with
  | none => none
  | some ty =>
    if ty = "" then some ⟨h, [], obj, false⟩
    else
      match clientOf obj with
      | none => some ⟨h, [], obj, false⟩
      | some addr =>
        if ExternalIDFieldName obj = "" then some ⟨h, [], obj, false⟩
        else if ExternalID obj = "" then some ⟨h, [], obj, false⟩
        else
          let reqObj := obj.makeCopyExt
          if marshalOK reqObj = false then some ⟨h, [], obj, false⟩
          else
            let queryBase :=
              if (h addr).useToolingAPI then "tooling/sobjects/" else "sobjects/"
            let p := Client.makeURL (h addr)
              (queryBase ++ ty ++ "/" ++ ExternalIDFieldName obj ++ "/" ++ ExternalID obj)
            let h1 := heapSet h addr p.1
            let req : Request := ⟨"PATCH", p.2, some reqObj, []⟩
            match tr with
            | .err _ => some ⟨h1, [req], obj, false⟩
            | .ok none => some ⟨h1, [req], obj, true⟩
            | .ok (some (.error _)) => some ⟨h1, [req], obj, false⟩
            | .ok (some (.ok v)) =>
              if v.success = false ∨ v.id = "" then some ⟨h1, [req], obj, false⟩
              else some ⟨h1, [req], setID obj v.id, true⟩

/-! ### `Client.Query` (force.go, tooling-aware variant) -/

/-- The decoded `QueryResult` wire shape. -/
structure QueryResultDec where
  totalSize : Int
  done : Bool
  nextRecordsURL : String
  records : List SObject

/-- Output of `Query`: issued requests, the returned result (with every
record bound to the issuing client) and the returned error. -/
structure QueryOut where
  requests : List Request
  result : Option QueryResultDec
  err : Option GoErr

/-- `func (client *Client) Query(q string) (*QueryResult, error)`
(`force.go`, lines 982–1019).  `escape` is the Go stdlib
`url.QueryEscape` collaborator.  With the tooling flag set,
`strings.Replace` rewrites the format string to
`"%s/services/data/v%s/tooling/query?q=%s"`. -/
def Client.Query (h : Heap) (addr : Nat) (q : String) (escape : String → String)
    (tr : TR2 (Except GoErr QueryResultDec)) : QueryOut :=
  let c := h addr
  if c.sessionID = "" then ⟨[], none, some .errAuthentication⟩
  else
    let u :=
      if hasPrefixStr q "/services/data" then c.instanceURL ++ q
      else if c.useToolingAPI then
        c.instanceURL ++ "/services/data/v" ++ c.apiVersion ++ "/tooling/query?q=" ++ escape q
      else
        c.instanceURL ++ "/services/data/v" ++ c.apiVersion ++ "/query?q=" ++ escape q
    let req : Request := ⟨"GET", u, none, []⟩
    match tr with
    | .err e => ⟨[req], none, some e⟩
    | .ok (.error e) => ⟨[req], none, some e⟩
    | .ok (.ok res) =>
        ⟨[req],
         some { res with records := res.records.map (fun r => setClient r (some addr)) },
         none⟩

/-! ### force.go v1 (`HTTPClient` + explicit-error variant) -/

/-- Go constant `duplicateRuleHeader` (`force.go`, line 20). -/
def duplicateRuleHeader : String := "Sforce-Duplicate-Rule-Header"

/-- The `HTTPClient` struct of the first force.go variant (lines 40–44);
the `httpClient` handle is never read by the modelled operations.
`NewHTTPClient` trims a trailing `/` from `baseURL` at construction. -/
structure HTTPClientV1 where
  baseURL : String
  apiVersion : String
deriving DecidableEq

/-- `func (h *HTTPClient) makeURL(url string) string` (`force.go`,
lines 307–309): `"%s/services/data/%s/%s"`, no mutation. -/
def HTTPClientV1.makeURL (c : HTTPClientV1) (url : String) : String :=
  c.baseURL ++ "/services/data/" ++ c.apiVersion ++ "/" ++ url

/-- Output of the force.go-v1 SObject calls: issued requests, record state
after the call and returned error. -/
structure HCOut where
  requests : List Request
  objAfter : SObject
  err : Option GoErr

/-- `func (h *HTTPClient) CreateSObject(sobj, blacklistedFields,
allowDuplicates) error` (`force.go`, lines 128–168).  Decoding targets a
`*createSObjectResponse`; a decoded JSON `null` leaves the pointer nil and
the subsequent `resData.Success` dereference panics (`.ok (.ok none)`
branch). -/
def HTTPClientV1.CreateSObject (c : HTTPClientV1) (sobj : SObject)
    (blacklistedFields : List String) (allowDuplicates : Bool)
    (tr : TR2 (Except GoErr (Option CreateRespVal))) : Option HCOut :=
  match sobj.typeName with
  | none => none
  | some ty =>
    if ty = "" then some ⟨[], sobj, some (.invalidSObject "Type is empty")⟩
    else
      let reqObj := sobj.makeCopyBl blacklistedFields
      if marshalOK reqObj = false then
        some ⟨[], sobj, some (.errorf "json: unsupported type")⟩
      else
        let url := c.makeURL ("sobjects/" ++ ty ++ "/")
        let headers :=
          if allowDuplicates then [(duplicateRuleHeader, "allowSave=true")] else []
        let req : Request := ⟨"POST", url, some reqObj, headers⟩
        match tr with
        | .err e => some ⟨[req], sobj, some e⟩
        | .ok (.error e) => some ⟨[req], sobj, some e⟩
        | .ok (.ok none) => none
        | .ok (.ok (some v)) =>
          if v.success = false ∨ v.id = "" then some ⟨[req], sobj, some .errFailure⟩
          else some ⟨[req], setID sobj v.id, none⟩

/-- `func (h *HTTPClient) GetSObject(sobj *SObject) error` (`force.go`,
lines 171–194): a decode failure is returned to the caller as the decode
error itself. -/
def HTTPClientV1.GetSObject (c : HTTPClientV1) (sobj : SObject)
    (tr : TR2 (Except GoErr SObject)) : Option HCOut :=
  match sobj.typeName with
  | none => none
  | some ty =>
    if ty = "" then some ⟨[], sobj, some (.invalidSObject "Type is empty")⟩
    else if sobj.ID = "" then some ⟨[], sobj, some (.invalidSObject "Id is empty")⟩
    else
      let url := c.makeURL ("sobjects/" ++ ty ++ "/" ++ sobj.ID)
      let req : Request := ⟨"GET", url, none, []⟩
      match tr with
      | .err e => some ⟨[req], sobj, some e⟩
      | .ok (.error e) => some ⟨[req], sobj, some e⟩
      | .ok (.ok fields) => some ⟨[req], mergeFields sobj fields, none⟩

/-! ### Derived predicates and concrete fixtures -/

/-- The record's `attributes.type` is unset: no attributes entry, an
attributes struct or map whose type entry is missing, `nil` or the empty
string, or an attributes value of a shape the accessor does not recognize. -/
def attrTypeUnset (obj : SObject) : Bool :=
  match InterfaceField obj SobjectAttributesKey with
  | none => true
  | some (.attrsVal t _) => t = ""
  | some (.obj m) =>
      match InterfaceField m "type" with
      | none => true
      | some .null => true
      | some (.str s) => s = ""
      | some _ => false
  | some _ => true

/-- Reading the attributes does not hit a failed type assertion. -/
def attrReadSafe (obj : SObject) : Bool :=
  (AttributesField obj).isSome

/-- An attributes value of a shape `AttributesField` does not recognize
(neither a concrete `SObjectAttributes` struct nor a decoded map). -/
def nonRecordShape : GoVal → Bool
  | .obj _ => false
  | .attrsVal _ _ => false
  | _ => true

/-- A concrete heap: one client at every address, logged in, not in tooling
mode, API version `43.0`, anchored at `https://example.com`. -/
def h0 : Heap :=
  fun _ => ⟨"sid", "simpleforce", "43.0", "https://example.com",
    "https://example.com", false⟩

/-- A concrete fetched `Case` record bound to the client at address 0 with
stored identity `001A`. -/
def caseRecord : SObject :=
  [(SobjectAttributesKey, .attrsVal "Case" ""),
   (SobjectClientKey, .clientPtr (some 0)),
   (sobjectIDKey, .str "001A")]

/-- A record whose `attributes.type` is unset but whose attributes map
carries a non-string `url` entry. -/
def c3obj : SObject :=
  [(SobjectAttributesKey, .obj [("url", .num 5)])]

/-- An unsaved `Case` record bound to the client at address 0. -/
def c5obj : SObject :=
  [(SobjectAttributesKey, .attrsVal "Case" ""),
   (SobjectClientKey, .clientPtr (some 0))]

/-- A record whose attributes map carries a non-string `type` entry. -/
def c7obj : SObject :=
  [(SobjectAttributesKey, .obj [("type", .num 5)])]

/-- A `Case` record bound to the client at address 0, carrying identity and
external-id data, as needed by `Update` and `Upsert`. -/
def c10obj : SObject :=
  [(SobjectAttributesKey, .attrsVal "Case" ""),
   (SobjectClientKey, .clientPtr (some 0)),
   (sobjectIDKey, .str "001A"),
   (sobjectExternalIDFieldNameKey, .str "Ext"),
   ("Ext", .str "X1")]

/-- A record whose attributes map has a string `url` entry and no `type`
entry. -/
def partialAttrObj : SObject :=
  [(SobjectAttributesKey, .obj [("url", .str "/services/data/v43.0/sobjects/Case/500X")])]

/-- A record holding a plain scalar foreign key, bound to the client at
address 7. -/
def parentLinkObj : SObject :=
  [(SobjectClientKey, .clientPtr (some 7)), ("ParentId", .str "500X")]

/-- A `Case` record of the force.go-v1 variant, whose records never store a
client binding. -/
def v1CaseObj : SObject :=
  [(SobjectAttributesKey, .attrsVal "Case" ""), ("Subject", .str "hi")]

end Simpleforce

namespace Simpleforce

/-! ## Helper lemmas -/

/-- Looking a key up after filtering by a key predicate. -/
theorem interfaceField_filterKeys (p : String → Bool) (obj : SObject) (k : String) :
    InterfaceField (List.filter (fun kv => p kv.1) obj) k =
      if p k then InterfaceField obj k else none := by
  induction obj with
  | nil =>
    by_cases h : p k <;> simp [InterfaceField, List.filter, h]
  | cons hd tl ih =>
    obtain ⟨k1, v⟩ := hd
    by_cases hpk : p k1
    · by_cases hkk : k1 = k
      · subst hkk
        simp [List.filter_cons_of_pos, hpk, InterfaceField]
      · simp [List.filter_cons_of_pos, hpk, InterfaceField, hkk, ih]
    · by_cases hkk : k1 = k
      · subst hkk
        simp [List.filter_cons_of_neg, hpk, InterfaceField, ih]
      · simp [List.filter_cons_of_neg, hpk, InterfaceField, hkk, ih]

/-- Looking a key up after a Go `delete`. -/
theorem interfaceField_deleteKey (m : SObject) (key k : String) :
    InterfaceField (deleteKey m key) k =
      if k = key then none else InterfaceField m k := by
  unfold deleteKey
  rw [interfaceField_filterKeys (fun s => decide (s ≠ key)) m k]
  by_cases h : k = key <;> simp [h]

/-- Looking a key up after deleting a whole list of keys. -/
theorem interfaceField_deleteAll (ks : List String) (m : SObject) (k : String) :
    InterfaceField (ks.foldl deleteKey m) k =
      if k ∈ ks then none else InterfaceField m k := by
  induction ks generalizing m with
  | nil => simp
  | cons a as ih =>
    rw [List.foldl_cons, ih, interfaceField_deleteKey]
    by_cases h1 : k ∈ as <;> by_cases h2 : k = a <;> simp [h1, h2]

/-! ## Claims -/

/-- Claim C1.  The claim states that for a body decoding neither as the
JSON error array nor as the XML fault, the classifier returns an error
whose message is the verbatim body and which preserves the HTTP status.
The cited `ParseSalesforceError` (`errorHelpers.go`) instead returns the
generic `ErrFailure` whose message is `"general failure"`, carrying neither
the body text nor the status — diverging from the repository's own
`TestUnsuccessfulParse` and from the `SalesforceError`-returning variant of
the same function, both of which produce exactly the claimed behaviour. -/
theorem parseSalesforceError_opaque_body_divergence :
    ParseSalesforceError 417 "surprise!" none none = some .errFailure ∧
    GoErr.message .errFailure = "general failure" ∧
    "general failure" ≠ "surprise!" ∧
    ParseSalesforceErrorSE 417 "surprise!" none none =
      some (.salesforce "surprise!" 417 "" "") :=
  ⟨rfl, rfl, by decide, rfl⟩

/-- Claim C6.  The claim states the classifier is total and falls through
to the next branch when the JSON decode yields an empty array.  In every
variant under `src/` the code indexes `jsonError[0]` right after a
successful decode, so a body `"[]"` — which decodes to an empty slice —
panics with an index-out-of-range instead of returning an error value. -/
theorem parseSalesforceError_empty_array_panics :
    ParseSalesforceError 400 "[]" (some []) none = none ∧
    ParseSalesforceErrorSE 400 "[]" (some []) none = none :=
  ⟨rfl, rfl⟩

/-- Claim C2.  The claim states `Delete` with an explicit identity argument
issues the DELETE against the URL built from the supplied identity.  The
code copies the argument into `oid` and checks it for emptiness, but then
builds the URL from `obj.ID()`: deleting with the override `"001B"` on a
record whose stored identity is `"001A"` issues the request against
`.../sobjects/Case/001A`.  The non-mutation half of the claim does hold —
the record is returned unchanged. -/
theorem delete_ignores_supplied_identity :
    (SObject.Delete h0 caseRecord (some "001B") (.ok ())).map
        (fun o => (o.requests.map Request.url, o.objAfter)) =
      some (["https://example.com/services/data/v43.0/sobjects/Case/001A"],
        caseRecord) ∧
    "https://example.com/services/data/v43.0/sobjects/Case/001A" ≠
      "https://example.com/services/data/v43.0/sobjects/Case/001B" :=
  ⟨rfl, by decide⟩

/-- Claim C4.  The outbound wire copy: the two-argument `makeCopy` of
`part_011` (the variant whose records never carry a session binding, called
with the per-call deny-list by `CreateSObject`/`UpdateSObject`/
`UpsertSObject`) removes the attributes envelope, the identity field and
the union of the fixed and per-call deny-lists, keeping every other field
with its value unchanged; the zero-argument `makeCopy` of `sobject.go`
(whose records do store the session under `"__client__"`) additionally
removes that session association. -/
theorem makeCopy_strips_meta_and_denylists (obj : SObject) (bl : List String)
    (k : String) :
    InterfaceField (SObject.makeCopyBl obj bl) k =
      (if k = SobjectAttributesKey ∨ k = sobjectIDKey ∨
          k ∈ blacklistedUpdateFields ∨ k ∈ bl
       then none else InterfaceField obj k) ∧
    InterfaceField (SObject.makeCopy obj) k =
      (if k = SobjectClientKey ∨ k = SobjectAttributesKey ∨ k = sobjectIDKey ∨
          k ∈ blacklistedUpdateFields
       then none else InterfaceField obj k) := by
  constructor
  · unfold SObject.makeCopyBl
    rw [interfaceField_deleteAll, interfaceField_deleteAll,
      interfaceField_filterKeys
        (fun s => decide (¬(s = SobjectAttributesKey ∨ s = sobjectIDKey)))]
    by_cases h1 : k = SobjectAttributesKey <;>
      by_cases h2 : k = sobjectIDKey <;>
      by_cases h3 : k ∈ blacklistedUpdateFields <;>
      by_cases h4 : k ∈ bl <;>
      simp [h1, h2, h3, h4]
  · unfold SObject.makeCopy
    rw [interfaceField_deleteAll,
      interfaceField_filterKeys
        (fun s => decide (¬(s = SobjectClientKey ∨ s = SobjectAttributesKey ∨
          s = sobjectIDKey)))]
    by_cases h0 : k = SobjectClientKey <;>
      by_cases h1 : k = SobjectAttributesKey <;>
      by_cases h2 : k = sobjectIDKey <;>
      by_cases h3 : k ∈ blacklistedUpdateFields <;>
      simp [h0, h1, h2, h3]

/-- When the attributes type is unset and reading the attributes cannot hit
a failed assertion, `Type()` returns the empty string. -/
theorem typeName_of_unset (obj : SObject) (h1 : attrTypeUnset obj = true)
    (h2 : attrReadSafe obj = true) : obj.typeName = some "" := by
  unfold attrTypeUnset at h1
  cases hA : InterfaceField obj SobjectAttributesKey with
  | none => simp [SObject.typeName, AttributesField, hA]
  | some v =>
    rw [hA] at h1
    cases v with
    | obj m =>
      simp only [] at h1
      cases hT : goStringAssert (InterfaceField m "type") with
      | none =>
        exfalso
        unfold attrReadSafe at h2
        simp [AttributesField, hA, hT] at h2
      | some t =>
        cases hU : goStringAssert (InterfaceField m "url") with
        | none =>
          exfalso
          unfold attrReadSafe at h2
          simp [AttributesField, hA, hT, hU] at h2
        | some u =>
          have ht0 : t = "" := by
            cases hT2 : InterfaceField m "type" with
            | none =>
              rw [hT2] at hT
              simp [goStringAssert] at hT
              exact hT.symm
            | some w =>
              rw [hT2] at hT h1
              cases w <;> simp [goStringAssert] at hT h1 <;> simp_all
          subst ht0
          simp [SObject.typeName, AttributesField, hA, hT, hU]
    | attrsVal t u =>
      have ht0 : t = "" := by simpa using h1
      subst ht0
      simp [SObject.typeName, AttributesField, hA]
    | str s => simp [SObject.typeName, AttributesField, hA]
    | num n => simp [SObject.typeName, AttributesField, hA]
    | boolean b => simp [SObject.typeName, AttributesField, hA]
    | null => simp [SObject.typeName, AttributesField, hA]
    | arr l => simp [SObject.typeName, AttributesField, hA]
    | clientPtr a => simp [SObject.typeName, AttributesField, hA]

/-- Claim C3 counterexample: `c3obj` has no `attributes.type` entry at all,
yet `Type()` does not return the empty string — the unguarded assertion on
the non-string `url` entry panics inside `AttributesField`, and the
operations' sanity checks panic with it instead of returning the local
error. -/
theorem typeName_panics_on_malformed_url_attr :
    attrTypeUnset c3obj = true ∧
    SObject.typeName c3obj = none ∧
    SObject.Describe h0 c3obj (.err .errFailure 0) = none ∧
    SObject.Get h0 c3obj none (.err .errFailure 0) = none ∧
    SObject.Create h0 c3obj (.err .errFailure 0) = none :=
  ⟨rfl, rfl, rfl, rfl, rfl⟩

/-- Claim C3 (amended).  For every record whose `attributes.type` is unset —
provided the attributes entries do not make the read accessor's type
assertion panic — `Type()` returns the empty string and `Describe`, `Get`
and `Create` return `ERR_DATA_NOT_FOUND` while issuing no request at all;
the same local failure (with zero requests) holds for a record with no
bound client whose `Type()` evaluates, whatever its type name. -/
theorem local_precondition_failures (obj : SObject) (h : Heap) (id : Option String)
    (tr1 : TR (Except GoErr SObject)) (tr2 : TR (Except GoErr SObject))
    (tr3 : TR (Except GoErr CreateRespVal)) :
    (attrTypeUnset obj = true → attrReadSafe obj = true →
      obj.typeName = some "" ∧
      SObject.Describe h obj tr1 = some ⟨h, [], none, some .errDataNotFound⟩ ∧
      SObject.Get h obj id tr2 = some ⟨h, [], obj, false, some .errDataNotFound⟩ ∧
      SObject.Create h obj tr3 = some ⟨h, [], obj, false, some .errDataNotFound⟩) ∧
    (∀ ty, clientOf obj = none → obj.typeName = some ty →
      SObject.Describe h obj tr1 = some ⟨h, [], none, some .errDataNotFound⟩ ∧
      SObject.Get h obj id tr2 = some ⟨h, [], obj, false, some .errDataNotFound⟩ ∧
      SObject.Create h obj tr3 = some ⟨h, [], obj, false, some .errDataNotFound⟩) := by
  constructor
  · intro hu hs
    have ht := typeName_of_unset obj hu hs
    exact ⟨ht, by simp [SObject.Describe, ht], by simp [SObject.Get, ht],
      by simp [SObject.Create, ht]⟩
  · intro ty hc ht
    refine ⟨?_, ?_, ?_⟩ <;> by_cases h9 : ty = ""
    · simp [SObject.Describe, ht, h9]
    · simp [SObject.Describe, ht, h9, hc]
    · simp [SObject.Get, ht, h9]
    · simp [SObject.Get, ht, h9, hc]
    · simp [SObject.Create, ht, h9]
    · simp [SObject.Create, ht, h9, hc]

/-- Claim C3 witness: the empty record has an unset type and no client;
the amended theorem applies to it. -/
theorem local_precondition_failures_witness :
    attrTypeUnset ([] : SObject) = true ∧ attrReadSafe ([] : SObject) = true ∧
    SObject.typeName ([] : SObject) = some "" :=
  ⟨rfl, rfl,
    ((local_precondition_failures [] h0 none (.err .errFailure 0)
      (.err .errFailure 0) (.err .errFailure 0)).1 rfl rfl).1⟩

/-- Claim C5 counterexample: 2xx transport, decoded response
`{id: "", success: false}` — the claim says `Create` returns an error, but
`sobject.go`'s `Create` executes `return nil, err` with `err` still nil
from the successful decode: no receiver and **no error**. -/
theorem create_unsuccessful_response_nil_error :
    (SObject.Create h0 c5obj (.ok (.ok ⟨"", false⟩))).map
      (fun o => (o.err, o.returnsReceiver, o.objAfter)) =
    some (none, false, c5obj) :=
  rfl

/-- Claim C5 (amended).  On a 2xx response whose decoded body has
`success == false` or an empty id, `HTTPClient.CreateSObject` returns the
generic `ErrFailure`, while `sobject.go`'s `Create` signals the failure
only by returning a nil record — its error result is nil; in both, the
record is left unchanged.  When `success` is true and the id non-empty,
both assign the server-issued identity into the record in place, and
`Create` returns the receiver with a nil error. -/
theorem create_response_handling
    (h : Heap) (obj : SObject) (ty : String) (addr : Nat)
    (hty : obj.typeName = some ty) (hty2 : ty ≠ "") (hcl : clientOf obj = some addr)
    (hm : marshalOK obj.makeCopy = true)
    (c : HTTPClientV1) (sobj : SObject) (ty2 : String) (bl : List String) (dup : Bool)
    (hty3 : sobj.typeName = some ty2) (hty4 : ty2 ≠ "")
    (hm2 : marshalOK (sobj.makeCopyBl bl) = true)
    (v : CreateRespVal) :
    ((v.success = false ∨ v.id = "") →
      (SObject.Create h obj (.ok (.ok v))).map
          (fun o => (o.objAfter, o.returnsReceiver, o.err)) =
        some (obj, false, none) ∧
      (c.CreateSObject sobj bl dup (.ok (.ok (some v)))).map
          (fun o => (o.objAfter, o.err)) =
        some (sobj, some .errFailure)) ∧
    (v.success = true → v.id ≠ "" →
      (SObject.Create h obj (.ok (.ok v))).map
          (fun o => (o.objAfter, o.returnsReceiver, o.err)) =
        some (setID obj v.id, true, none) ∧
      (c.CreateSObject sobj bl dup (.ok (.ok (some v)))).map
          (fun o => (o.objAfter, o.err)) =
        some (setID sobj v.id, none)) := by
  constructor
  · intro hfail
    rcases hfail with hf | hf <;>
      exact ⟨by simp [SObject.Create, hty, hty2, hcl, hm, hf],
        by simp [HTTPClientV1.CreateSObject, hty3, hty4, hm2, hf]⟩
  · intro hs hid
    exact ⟨by simp [SObject.Create, hty, hty2, hcl, hm, hs, hid],
      by simp [HTTPClientV1.CreateSObject, hty3, hty4, hm2, hs, hid]⟩

/-- Claim C5 witness: a concrete unsuccessful create response on concrete
well-formed records, through the amended theorem. -/
theorem create_response_handling_witness :
    SObject.typeName c5obj = some "Case" ∧
    (SObject.Create h0 c5obj (.ok (.ok ⟨"", false⟩))).map
        (fun o => (o.objAfter, o.returnsReceiver, o.err)) =
      some (c5obj, false, none) :=
  ⟨rfl,
    ((create_response_handling h0 c5obj "Case" 0 (by rfl) (by decide) (by rfl) (by rfl)
      ⟨"https://example.com", "v43.0"⟩ v1CaseObj "Case" [] false (by rfl) (by decide) (by rfl)
      ⟨"", false⟩).1 (Or.inl rfl)).1⟩

/-- Claim C7 counterexample: an attributes map whose `type` entry holds the
number 5 — present but malformed.  The claim says the read accessors
degrade and never panic; the unchecked `mapper["type"].(string)` assertion
panics in `AttributesField`, and `Type()` panics with it. -/
theorem attributesField_panics_on_nonstring_type :
    AttributesField c7obj = none ∧ SObject.typeName c7obj = none :=
  ⟨rfl, rfl⟩

/-- Claim C7 (amended).  An attributes map whose `type`/`url` entries are
each missing, nil or a string degrades without failing: `AttributesField`
returns a copy with the missing entries left as empty strings and `Type()`
returns that (possibly empty) type; an attributes value of any
non-struct/non-map shape reads as absent (`nil` attributes, empty type).
Only a present, non-nil, non-string entry makes the accessors panic. -/
theorem attributes_partial_degrade (obj : SObject) :
    (∀ m t u, InterfaceField obj SobjectAttributesKey = some (.obj m) →
        goStringAssert (InterfaceField m "type") = some t →
        goStringAssert (InterfaceField m "url") = some u →
        AttributesField obj = some (some ⟨t, u⟩) ∧ obj.typeName = some t) ∧
    (∀ v, InterfaceField obj SobjectAttributesKey = some v →
        nonRecordShape v = true →
        AttributesField obj = some none ∧ obj.typeName = some "") ∧
    (InterfaceField obj SobjectAttributesKey = none →
        AttributesField obj = some none ∧ obj.typeName = some "") := by
  refine ⟨?_, ?_, ?_⟩
  · intro m t u hA hT hU
    have hf : AttributesField obj = some (some ⟨t, u⟩) := by
      simp [AttributesField, hA, hT, hU]
    exact ⟨hf, by simp [SObject.typeName, hf]⟩
  · intro v hA hs
    have hf : AttributesField obj = some none := by
      cases v <;> simp_all [AttributesField, nonRecordShape]
    exact ⟨hf, by simp [SObject.typeName, hf]⟩
  · intro hA
    have hf : AttributesField obj = some none := by
      simp [AttributesField, hA]
    exact ⟨hf, by simp [SObject.typeName, hf]⟩

/-- Claim C7 witness: a partial attributes map with only a `url` string
entry degrades to an attributes copy with an empty type. -/
theorem attributes_partial_degrade_witness :
    AttributesField partialAttrObj =
      some (some ⟨"", "/services/data/v43.0/sobjects/Case/500X"⟩) ∧
    SObject.typeName partialAttrObj = some "" :=
  (attributes_partial_degrade partialAttrObj).1
    [("url", .str "/services/data/v43.0/sobjects/Case/500X")]
    "" "/services/data/v43.0/sobjects/Case/500X" rfl rfl rfl

/-- Claim C8 counterexample: 2xx transport, body that fails to decode —
the claim says a decode-class error is returned rather than a nil result
with nil error, but `sobject.go`'s `Get` executes `return nil, nil` on the
decode failure. -/
theorem get_decode_failure_nil_nil :
    (SObject.Get h0 caseRecord none (.ok (.error (.errorf "invalid character")))).map
      (fun o => (o.returnsReceiver, o.err, o.objAfter)) =
    some (false, none, caseRecord) :=
  rfl

/-- Claim C8 (amended).  On a 2xx response whose body does not decode,
`HTTPClient.GetSObject` returns the decode error itself (a non-nil error,
not the wrapped remote-failure shape), while `sobject.go`'s `Get` returns a
nil record together with a nil error; in both, the receiver is left
unchanged. -/
theorem get_decode_failure_error_reporting
    (h : Heap) (obj : SObject) (ty : String) (addr : Nat) (id : Option String)
    (e : GoErr)
    (hty : obj.typeName = some ty) (hty2 : ty ≠ "") (hcl : clientOf obj = some addr)
    (hoid : id.getD obj.ID ≠ "")
    (c : HTTPClientV1) (sobj : SObject) (ty2 : String)
    (hty3 : sobj.typeName = some ty2) (hty4 : ty2 ≠ "") (hid : sobj.ID ≠ "") :
    (SObject.Get h obj id (.ok (.error e))).map
        (fun o => (o.objAfter, o.returnsReceiver, o.err)) =
      some (obj, false, none) ∧
    (c.GetSObject sobj (.ok (.error e))).map (fun o => (o.objAfter, o.err)) =
      some (sobj, some e) := by
  exact ⟨by simp [SObject.Get, hty, hty2, hcl, hoid],
    by simp [HTTPClientV1.GetSObject, hty3, hty4, hid]⟩

/-- Claim C8 witness: a concrete undecodable 2xx body on concrete records,
through the amended theorem. -/
theorem get_decode_failure_error_reporting_witness :
    SObject.typeName caseRecord = some "Case" ∧
    (SObject.Get h0 caseRecord none (.ok (.error (.errorf "invalid character")))).map
        (fun o => (o.objAfter, o.returnsReceiver, o.err)) =
      some (caseRecord, false, none) :=
  ⟨rfl,
    (get_decode_failure_error_reporting h0 caseRecord "Case" 0 none
      (.errorf "invalid character") rfl (by decide) rfl (by decide)
      ⟨"https://example.com", "v43.0"⟩ caseRecord "Case" rfl (by decide)
      (by decide)).1⟩

/-- Claim C9.  On a record whose foreign-key field holds a non-empty string
identity, `SObjectField` takes the scalar branch and returns a stub record:
client binding copied from the receiver, attributes holding exactly the
given type name, identity holding exactly the scalar value, and no other
field at all. -/
theorem sObjectField_scalar_stub (obj : SObject) (tn key s : String) (a : Nat)
    (hf : InterfaceField obj key = some (.str s)) (hs : s ≠ "")
    (hb : clientOf obj = some a) :
    SObject.SObjectField obj tn key =
      some [(SobjectClientKey, .clientPtr (some a)),
            (SobjectAttributesKey, .attrsVal tn ""),
            (sobjectIDKey, .str s)] ∧
    SObject.typeName
        [(SobjectClientKey, GoVal.clientPtr (some a)),
         (SobjectAttributesKey, .attrsVal tn ""),
         (sobjectIDKey, .str s)] = some tn ∧
    SObject.ID
        [(SobjectClientKey, GoVal.clientPtr (some a)),
         (SobjectAttributesKey, .attrsVal tn ""),
         (sobjectIDKey, .str s)] = s ∧
    (∀ k, k ≠ SobjectClientKey → k ≠ SobjectAttributesKey → k ≠ sobjectIDKey →
      InterfaceField
        [(SobjectClientKey, GoVal.clientPtr (some a)),
         (SobjectAttributesKey, .attrsVal tn ""),
         (sobjectIDKey, .str s)] k = none) := by
  have hsf : StringField obj key = s := by simp [StringField, hf]
  refine ⟨?_, ?_, ?_, ?_⟩
  · simp only [SObject.SObjectField, hsf, hb]
    rw [if_pos hs]
    rfl
  · rfl
  · rfl
  · intro k h1 h2 h3
    simp [InterfaceField, Ne.symm h1, Ne.symm h2, Ne.symm h3]

/-- Claim C9 witness: `ParentId = "500X"` on a record bound to the client
at address 7, related type `Case`. -/
theorem sObjectField_scalar_stub_witness :
    InterfaceField parentLinkObj "ParentId" = some (.str "500X") ∧
    SObject.SObjectField parentLinkObj "Case" "ParentId" =
      some [(SobjectClientKey, .clientPtr (some 7)),
            (SobjectAttributesKey, .attrsVal "Case" ""),
            (sobjectIDKey, .str "500X")] :=
  ⟨rfl,
    (sObjectField_scalar_stub parentLinkObj "Case" "ParentId" "500X" 7 rfl
      (by decide) rfl).1⟩

/-- Claim C10.  `Tooling()` mutates the pointed-to client in place and
returns the very same pointer; through the shared heap, every record bound
to that address (any alias) subsequently routes `Update`, `Upsert` and
`Query` through the `tooling/` namespace, until `UnTooling()` resets the
flag and `Update` routes through `sobjects/` again. -/
theorem tooling_inplace_routing
    (h : Heap) (addr : Nat) (obj : SObject) (ty : String)
    (hty : obj.typeName = some ty) (hty2 : ty ≠ "") (hcl : clientOf obj = some addr)
    (hid : obj.ID ≠ "") (hm : marshalOK obj.makeCopy = true)
    (hx1 : ExternalIDFieldName obj ≠ "") (hx2 : ExternalID obj ≠ "")
    (hmx : marshalOK obj.makeCopyExt = true)
    (q : String) (escape : String → String)
    (hq : hasPrefixStr q "/services/data" = false)
    (hsess : (h addr).sessionID ≠ "")
    (trU : TR Unit) (trP : TR2 (Option (Except GoErr CreateRespVal)))
    (trQ : TR2 (Except GoErr QueryResultDec)) :
    (Client.Tooling h addr).2 = addr ∧
    ((Client.Tooling h addr).1 addr).useToolingAPI = true ∧
    (SObject.Update ((Client.Tooling h addr).1) obj trU).map
        (fun o => o.requests.map Request.url) =
      some [(Client.makeURL ((Client.Tooling h addr).1 addr)
        ("tooling/sobjects/" ++ ty ++ "/" ++ obj.ID)).2] ∧
    (SObject.Upsert ((Client.Tooling h addr).1) obj trP).map
        (fun o => o.requests.map Request.url) =
      some [(Client.makeURL ((Client.Tooling h addr).1 addr)
        ("tooling/sobjects/" ++ ty ++ "/" ++ ExternalIDFieldName obj ++ "/" ++
          ExternalID obj)).2] ∧
    (Client.Query ((Client.Tooling h addr).1) addr q escape trQ).requests.map
        Request.url =
      [((Client.Tooling h addr).1 addr).instanceURL ++ "/services/data/v" ++
        ((Client.Tooling h addr).1 addr).apiVersion ++ "/tooling/query?q=" ++
        escape q] ∧
    (SObject.Update (Client.UnTooling ((Client.Tooling h addr).1) addr) obj trU).map
        (fun o => o.requests.map Request.url) =
      some [(Client.makeURL (Client.UnTooling ((Client.Tooling h addr).1) addr addr)
        ("sobjects/" ++ ty ++ "/" ++ obj.ID)).2] := by
  have h1a : (Client.Tooling h addr).1 addr = { h addr with useToolingAPI := true } := by
    simp [Client.Tooling, heapSet]
  have h2a : Client.UnTooling ((Client.Tooling h addr).1) addr addr =
      { (Client.Tooling h addr).1 addr with useToolingAPI := false } := by
    simp [Client.UnTooling, heapSet]
  refine ⟨rfl, by simp [h1a], ?_, ?_, ?_, ?_⟩
  · cases trU <;> simp [SObject.Update, hty, hty2, hcl, hid, hm, h1a]
  · cases trP with
    | err e => simp [SObject.Upsert, hty, hty2, hcl, hx1, hx2, hmx, h1a]
    | ok dec =>
      cases dec with
      | none => simp [SObject.Upsert, hty, hty2, hcl, hx1, hx2, hmx, h1a]
      | some r =>
        cases r with
        | error e => simp [SObject.Upsert, hty, hty2, hcl, hx1, hx2, hmx, h1a]
        | ok v =>
          simp [SObject.Upsert, hty, hty2, hcl, hx1, hx2, hmx, h1a, apply_ite]
  · cases trQ with
    | err e => simp [Client.Query, h1a, hsess, hq]
    | ok dec =>
      cases dec with
      | error e => simp [Client.Query, h1a, hsess, hq]
      | ok res => simp [Client.Query, h1a, hsess, hq]
  · cases trU <;> simp [SObject.Update, hty, hty2, hcl, hid, hm, h2a, h1a]

/-- Claim C10 witness: a concrete client at address 0 and a concrete bound
record with identity and external-id data. -/
theorem tooling_inplace_routing_witness :
    (Client.Tooling h0 0).2 = 0 ∧ ((Client.Tooling h0 0).1 0).useToolingAPI = true :=
  ⟨(tooling_inplace_routing h0 0 c10obj "Case" (by rfl) (by decide) (by rfl)
      (by decide) (by rfl) (by decide) (by decide) (by rfl)
      "SELECT Id FROM Case" (fun s => s) (by decide) (by decide)
      (.ok ()) (.err .errFailure) (.err .errFailure)).1,
    (tooling_inplace_routing h0 0 c10obj "Case" (by rfl) (by decide) (by rfl)
      (by decide) (by rfl) (by decide) (by decide) (by rfl)
      "SELECT Id FROM Case" (fun s => s) (by decide) (by decide)
      (.ok ()) (.err .errFailure) (.err .errFailure)).2.1⟩

end Simpleforce
